import Mathlib

/-!
Verification of the RedGram client's multi-account chat synchronization and
message-routing model, embedded shallowly from the TypeScript source
(`src/App.tsx`, the `ChatSocket` service, and `src/server.js`).

Modelling conventions:
* `Date.now()` is an explicit `now : Nat` parameter.
* `localStorage` maps are total functions returning `Option`.
* The React message store `Record<string, Message[]>` is a total function
  `String → List Message`, with missing keys read as `[]` (the code always
  falls back to `[]` via `prev[k] || []`).
* TypeScript optional fields become `Option`; fields only tested for
  truthiness and always written as booleans become `Bool`.
* The TS field `bio` is rendered `bioText`, and `type` is rendered
  `msgType` (naming limitations only; the semantics are unchanged).
-/

/-- Message direction tag: `'me' | 'them'` in the source. -/
inductive Sender where
  | me
  | them
deriving DecidableEq, Repr

/-- Delivery status: `'sent' | 'delivered' | 'read'` in the source. -/
inductive Status where
  | sent
  | delivered
  | read
deriving DecidableEq, Repr

/-- `Message` interface from the ChatSocket service. -/
structure Message where
  id : String
  chatId : String
  text : String
  sender : Sender
  senderId : Option String := none
  timestamp : Nat
  status : Status
  msgType : Option String := none
  mediaUrl : Option String := none
  fileName : Option String := none
  fileSize : Option String := none
  duration : Option Nat := none
deriving DecidableEq, Repr

/-- `ChatPreview` interface from the ChatSocket service. -/
structure ChatPreview where
  id : String
  name : String
  avatar : Option String := none
  color : String
  lastMessage : String
  timestamp : Nat
  unreadCount : Nat
  isOnline : Bool
  isBot : Bool := false
  isGroup : Bool := false
  username : Option String := none
  bioText : Option String := none
  phone : Option String := none
  muted : Bool := false
  isAdmin : Bool := false
  membersCount : Option Nat := none
  sender : Option Sender := none
  memberIds : Option (List String) := none
deriving DecidableEq, Repr

/-- `UserProfile` interface from the ChatSocket service (privacy prefs omitted:
no claim touches them). -/
structure UserProfile where
  id : String
  name : String
  username : String
  phone : String
  bioText : String
  avatarColor : String
  isPremium : Bool := false
  isAdmin : Bool := false
deriving DecidableEq, Repr

/-- The global message store (`Record<string, Message[]>`), missing keys read
as the empty list. -/
abbrev MsgStore := String → List Message

/-- Per-account persisted chat snapshots (`localStorage` under
`redgram_chats_` + userId, already JSON-parsed). -/
abbrev ChatStore := String → Option (List ChatPreview)

/-- The `userDirectoryRef` cache: username → last-known profile. -/
abbrev UserDir := String → Option UserProfile

/-- Point update of the message store (`setMessages(prev => ({...prev, [k]: v}))`). -/
def setMsgs (store : MsgStore) (k : String) (v : List Message) : MsgStore :=
  fun k' => if k' = k then v else store k'

/-- Point update of the persisted chat snapshots (`localStorage.setItem`). -/
def saveChats (ls : ChatStore) (userId : String) (v : List ChatPreview) : ChatStore :=
  fun k' => if k' = userId then some v else ls k'

/-- `userDirectoryRef.current[u.username] = u`. -/
def dirInsert (dir : UserDir) (u : UserProfile) : UserDir :=
  fun k => if k = u.username then some u else dir k

/-- The seeded `INITIAL_CHATS` constant from App.tsx (timestamps are the
load-time `Date.now()`, passed in as `now`). -/
def INITIAL_CHATS (now : Nat) : List ChatPreview :=
  [ { id := "1", name := "Saved Messages", color := "bg-sky-500 text-white",
      lastMessage := "Cloud storage", timestamp := now, unreadCount := 0,
      isOnline := true, bioText := some "Your personal cloud storage.",
      username := some "saved_messages", sender := some .me },
    { id := "2", name := "Gemini AI",
      color := "bg-gradient-to-br from-blue-500 to-purple-500 text-white",
      lastMessage := "I am ready to help.", timestamp := now, unreadCount := 1,
      isOnline := true, isBot := true, username := some "gemini_bot",
      bioText := some "I am a large language model, trained by Google. Ask me anything!",
      sender := some .them } ]

/-- `loadChatsForUser` from App.tsx: read the persisted snapshot for `userId`,
falling back to `INITIAL_CHATS`. -/
def loadChatsForUser (ls : ChatStore) (now : Nat) (userId : String) : List ChatPreview :=
  match ls userId with
  | some chats => chats
  | none => INITIAL_CHATS now

/-- Remove the first list element satisfying `p` (the `splice(chatIndex, 1)`
step, where `chatIndex` is the first match). -/
def removeFirst (p : α → Bool) : List α → List α
  | [] => []
  | x :: xs => if p x then xs else x :: removeFirst p xs

/-- JavaScript `s || fallback` on an optional string: both `undefined` and
the empty string are falsy and select the fallback. -/
def orFalsy (s : Option String) (fallback : String) : String :=
  match s with
  | some s => if s = "" then fallback else s
  | none => fallback

/-- Routing step of `handleIncomingMessage`: a DM addressed to me
(`msg.chatId === userProfile.username`) is routed to the sender's thread
(`msg.senderId || 'unknown'`, with `''` falsy); otherwise the conversation id
is used as-is. -/
def routeTarget (selfUsername : String) (msg : Message) : String :=
  if msg.chatId = selfUsername then orFalsy msg.senderId "unknown" else msg.chatId

/-- The auto-created contact in `handleIncomingMessage` when no chat with the
routed id exists: metadata from the user directory when cached, otherwise the
raw id (`targetChatId || 'Unknown'`) and a default color. -/
def incomingNewChat (dir : UserDir) (targetChatId : String) (msg : Message) : ChatPreview :=
  { id := targetChatId
    name := match dir targetChatId with
            | some senderInfo => senderInfo.name
            | none => if targetChatId = "" then "Unknown" else targetChatId
    username := some targetChatId
    color := match dir targetChatId with
             | some senderInfo => senderInfo.avatarColor
             | none => "bg-gray-500"
    lastMessage := msg.text
    timestamp := msg.timestamp
    unreadCount := 1
    isOnline := true
    isBot := false
    sender := some .them }

/-- `handleIncomingMessage` from App.tsx: resolve the target conversation,
append the message to its thread, then either auto-create a chat preview at
the front of the list or update the existing one (bumping `unreadCount`
unless the conversation is active) and move it to the front. -/
def handleIncomingMessage (selfUsername : String) (activeChatId : Option String)
    (dir : UserDir) (msg : Message)
    (chats : List ChatPreview) (store : MsgStore) : List ChatPreview × MsgStore :=
  let targetChatId := routeTarget selfUsername msg
  let store' := setMsgs store targetChatId (store targetChatId ++ [msg])
  let chats' :=
    match chats.find? (fun c => c.id = targetChatId) with
    | none => incomingNewChat dir targetChatId msg :: chats
    | some chat =>
        let isActive := activeChatId = some targetChatId
        let updatedChat :=
          { chat with
            lastMessage := msg.text
            timestamp := msg.timestamp
            unreadCount := if isActive then chat.unreadCount else chat.unreadCount + 1
            sender := some msg.sender }
        updatedChat :: removeFirst (fun c => c.id = targetChatId) chats
  (chats', store')

/-- `handleSelectChat` from App.tsx: activate a conversation and zero its
unread counter. Returns the new `activeChatId` and chat list. -/
def handleSelectChat (id : String) (chats : List ChatPreview) :
    Option String × List ChatPreview :=
  (some id, chats.map (fun c => if c.id = id then { c with unreadCount := 0 } else c))

/-- The NEW_MESSAGE branch of the `socket.subscribe` handler in App.tsx:
messages whose `senderId` equals the local account's username are dropped;
all others go through `handleIncomingMessage`. -/
def onNewMessageEvent (selfUsername : String) (activeChatId : Option String)
    (dir : UserDir) (msg : Message)
    (chats : List ChatPreview) (store : MsgStore) : List ChatPreview × MsgStore :=
  if msg.senderId = some selfUsername then (chats, store)
  else handleIncomingMessage selfUsername activeChatId dir msg chats store

/-- The relay's SEND_MESSAGE broadcast transformation (server.js): the stored
message is re-broadcast with `sender: 'them'` and `status: 'sent'`, keeping
`senderId`. -/
def serverBroadcastMessage (msg : Message) : Message :=
  { msg with sender := .them, status := .sent }

/-- The "is mine" test of the read-receipts effect in App.tsx:
`m.senderId === userProfile.username || m.sender === 'me'`. -/
def isMine (selfUsername : String) (m : Message) : Bool :=
  m.senderId = some selfUsername || m.sender = Sender.me

/-- The unread-counterpart filter of the read-receipts effect:
messages not authored locally and not yet marked read. -/
def unreadOf (selfUsername : String) (msgs : List Message) : List Message :=
  msgs.filter (fun m => !isMine selfUsername m && m.status ≠ Status.read)

/-- The read-receipts `useEffect` in App.tsx (one run of its body): if a
conversation is active and holds unread counterpart messages, mark them read
locally, zero the chat's unread counter, and emit one
`sendReadReceipt(activeChatId, idsToMark)` call (returned as the third
component; `none` means no emission). -/
def runReadEffect (selfUsername : String) (activeChatId : Option String)
    (chats : List ChatPreview) (store : MsgStore) :
    List ChatPreview × MsgStore × Option (String × List String) :=
  match activeChatId with
  | none => (chats, store, none)
  | some a =>
      -- `if (activeChatId && socketRef.current)`: the empty string is falsy,
      -- so an active id "" skips the whole effect.
      if a = "" then (chats, store, none)
      else
      let unreadMessages := unreadOf selfUsername (store a)
      if unreadMessages.isEmpty then (chats, store, none)
      else
        let idsToMark := unreadMessages.map (fun m => m.id)
        let store' := setMsgs store a ((store a).map (fun m =>
          if idsToMark.contains m.id then { m with status := Status.read } else m))
        let chats' := chats.map (fun c =>
          if c.id = a then { c with unreadCount := 0 } else c)
        (chats', store', some (a, idsToMark))

/-- `handleReadReceipt` from App.tsx: resolve the local conversation key (the
literal `chatId` only when it names an existing group chat, otherwise the
reader's id), then mark the listed message ids read, leaving the store
untouched when nothing needs updating. -/
def handleReadReceipt (chats : List ChatPreview) (chatId : String)
    (messageIds : List String) (readerId : String) (store : MsgStore) : MsgStore :=
  let targetLocalChatId :=
    match chats.find? (fun c => c.id = chatId && c.isGroup) with
    | some _ => chatId
    | none => readerId
  let currentList := store targetLocalChatId
  let needsUpdate := currentList.any (fun m =>
    messageIds.contains m.id && m.status ≠ Status.read)
  if needsUpdate then
    setMsgs store targetLocalChatId (currentList.map (fun m =>
      if messageIds.contains m.id then { m with status := Status.read } else m))
  else store

/-- The contact preview synthesized by `handleUserSync` for a directory peer
not yet present in the chat list. -/
def syncContact (u : UserProfile) (now : Nat) : ChatPreview :=
  { id := u.username, name := u.name, username := some u.username,
    bioText := some u.bioText, phone := some u.phone, color := u.avatarColor,
    lastMessage := "", timestamp := now, unreadCount := 0,
    isOnline := true, isBot := false }

/-- `handleUserSync` from App.tsx (chat-list part): fold over the directory
snapshot, appending a fresh zero-unread preview for every peer that is not
self and matches no chat already accumulated. (The `changed ? newChats : prev`
step returns the same list either way.) -/
def handleUserSync (selfUsername : String) (now : Nat) (users : List UserProfile)
    (chats : List ChatPreview) : List ChatPreview :=
  users.foldl (fun acc u =>
    if u.username = selfUsername then acc
    else if acc.any (fun c => c.username = some u.username) then acc
    else acc ++ [syncContact u now]) chats

/-- Directory-cache part of `handleUserSync`: `users.forEach(u => dir[u.username] = u)`. -/
def handleUserSyncDir (users : List UserProfile) (dir : UserDir) : UserDir :=
  users.foldl dirInsert dir

/-- The contact preview synthesized by `handleNewUserJoined`. -/
def joinContact (profile : UserProfile) (now : Nat) : ChatPreview :=
  { id := profile.username, name := profile.name, username := some profile.username,
    bioText := some profile.bioText, phone := some profile.phone,
    color := profile.avatarColor, lastMessage := "", timestamp := now,
    unreadCount := 0, isOnline := true, isBot := false }

/-- The system message seeding a joined peer's conversation
(`text: t.contactJoined`, the translated string passed as `joinedText`). -/
def joinSystemMsg (profile : UserProfile) (joinedText : String) (now : Nat) : Message :=
  { id := toString now, chatId := profile.username, text := joinedText,
    sender := .them, senderId := some "system", timestamp := now, status := .read }

/-- `handleNewUserJoined` from App.tsx (chat-list and message-store part; the
`userDirectoryRef` write is `dirInsert dir profile`, kept separate): if the
peer is self or a chat with its username already exists, leave both stores
unchanged; otherwise prepend a fresh preview and seed the conversation with
exactly the one system message. -/
def handleNewUserJoined (selfUsername : String) (joinedText : String) (now : Nat)
    (profile : UserProfile)
    (chats : List ChatPreview) (store : MsgStore) : List ChatPreview × MsgStore :=
  if profile.username = selfUsername then (chats, store)
  else
    match chats.find? (fun c => c.username = some profile.username) with
    | some _ => (chats, store)
    | none =>
        (joinContact profile now :: chats,
         setMsgs store profile.username [joinSystemMsg profile joinedText now])

/-- `handleSwitchAccount` from App.tsx: persist the outgoing account's chat
list under its key, then load the incoming account's snapshot (`activeChatId`
is reset to `none`). Returns the updated storage, the new profile, the loaded
chats, and the cleared active id. -/
def handleSwitchAccount (ls : ChatStore) (now : Nat) (cur : UserProfile)
    (curChats : List ChatPreview) (newProfile : UserProfile) :
    ChatStore × UserProfile × List ChatPreview × Option String :=
  let ls' := saveChats ls cur.id curChats
  (ls', newProfile, loadChatsForUser ls' now newProfile.id, none)

/-- Result of one `handleSendMessage` call: the updated chat list, message
store, persisted per-account snapshots (cross-account mirroring), the wire
message emitted through `ChatSocket.sendMessage` (if any), and the bot
conversation for which a reply generation was started (if any). -/
structure SendResult where
  chats : List ChatPreview
  store : MsgStore
  ls : ChatStore
  wire : Option Message := none
  botTarget : Option String := none

/-- One group member's mirroring step in `handleSendMessage` (step 3): if the
member resolves to a locally-registered account whose snapshot contains the
group, bump that snapshot's copy of the group to the front with the new text
and an incremented unread counter. -/
def mirrorGroupMember (selfUsername : String) (accounts : List UserProfile)
    (chat : ChatPreview) (text : String) (now : Nat)
    (ls : ChatStore) (memberId : String) : ChatStore :=
  if memberId = selfUsername then ls
  else
    match accounts.find? (fun a => a.id = memberId || a.username = memberId) with
    | none => ls
    | some targetAcc =>
        let targetChats := loadChatsForUser ls now targetAcc.id
        match targetChats.find? (fun c => c.id = chat.id) with
        | none => ls
        | some groupChat =>
            let updatedGroup :=
              { groupChat with
                lastMessage := text, timestamp := now,
                unreadCount := groupChat.unreadCount + 1, sender := some .them }
            saveChats ls targetAcc.id
              (updatedGroup :: removeFirst (fun c => c.id = chat.id) targetChats)

/-- The direct-message mirroring of `handleSendMessage` into the target
account's persisted snapshot (the second half of step 3): prepend or bump a
chat entry for the sender in the recipient account's snapshot. -/
def mirrorDirectTarget (self : UserProfile) (text : String) (now : Nat)
    (ls : ChatStore) (targetAcc : UserProfile) : ChatStore :=
  let targetChats := loadChatsForUser ls now targetAcc.id
  match targetChats.find? (fun c => c.id = self.username) with
  | none =>
      let newChatEntry : ChatPreview :=
        { id := self.username, name := self.name, username := some self.username,
          color := self.avatarColor, lastMessage := text, timestamp := now,
          unreadCount := 1, isOnline := true, isBot := false, sender := some .them }
      saveChats ls targetAcc.id (newChatEntry :: targetChats)
  | some existing =>
      let updatedExisting :=
        { existing with
          lastMessage := text, timestamp := now,
          unreadCount := existing.unreadCount + 1, sender := some .them }
      saveChats ls targetAcc.id
        (updatedExisting :: removeFirst (fun c => c.id = self.username) targetChats)

/-- `handleSendMessage` from App.tsx (text-only path; `attachment` spreading
omitted — no claim touches attachments): emit the wire message, apply the
optimistic local update, mirror into other local accounts' snapshots, and
decide whether a bot reply is generated (step 4:
`chat.isBot && !chat.isGroup && chat.id !== '1'`). -/
def handleSendMessage (self : UserProfile) (accounts : List UserProfile)
    (activeChatId : Option String) (now : Nat) (text : String)
    (chats : List ChatPreview) (store : MsgStore) (ls : ChatStore) : SendResult :=
  match activeChatId with
  | none => { chats := chats, store := store, ls := ls }
  | some a =>
    -- `if (!activeChatId || !socketRef.current) return;`: the empty string is
    -- falsy, so an active id "" returns before any step runs.
    if a = "" then { chats := chats, store := store, ls := ls }
    else
    match chats.find? (fun c => c.id = a) with
    | none => { chats := chats, store := store, ls := ls }
    | some chat =>
        let userMsg : Message :=
          { id := toString now, chatId := a, text := text, sender := .me,
            senderId := some self.username, timestamp := now, status := .sent }
        -- 1. wire message built by ChatSocket.sendMessage(a, text, chat.id, chat.isGroup)
        let wireMsg : Message :=
          { userMsg with chatId := if chat.isGroup then a else chat.id }
        -- 2. optimistic local update
        let store₁ := setMsgs store a (store a ++ [userMsg])
        let chats₁ :=
          { chat with lastMessage := text, timestamp := now, sender := some .me } ::
            removeFirst (fun c => c.id = a) chats
        -- 3. sync to other local accounts
        let ls₁ :=
          if chat.isGroup then
            match chat.memberIds with
            | some memberIds =>
                memberIds.foldl (mirrorGroupMember self.username accounts chat text now) ls
            | none => ls
          else ls
        let ls₂ :=
          match accounts.find? (fun acc => acc.id = a) with
          | none => ls₁
          | some targetAcc => mirrorDirectTarget self text now ls₁ targetAcc
        let store₂ :=
          match accounts.find? (fun acc => acc.id = a) with
          | none => store₁
          | some _ =>
              let msgForTarget : Message :=
                { userMsg with sender := .them, chatId := self.username }
              setMsgs store₁ self.username (store₁ self.username ++ [msgForTarget])
        -- 4. AI logic: restricted to bots only
        let botTarget := if chat.isBot && !chat.isGroup && chat.id ≠ "1" then some a else none
        { chats := chats₁, store := store₂, ls := ls₂,
          wire := some wireMsg, botTarget := botTarget }

/-- The typing-simulation delay of `simulateTypingAndSend`:
`Math.min(Math.max(text.length * 30, 1500), 6000)`. -/
def botDelay (text : String) : Nat :=
  min (max (text.length * 30) 1500) 6000

/-- The inbound-shaped message `simulateTypingAndSend` builds for a bot reply. -/
def mkBotMsg (chatId text : String) (senderId : Option String) (now : Nat) : Message :=
  { id := toString now, chatId := chatId, text := text, sender := .them,
    senderId := senderId, timestamp := now, status := .read }

/-- `simulateTypingAndSend` from App.tsx: wait `botDelay text` milliseconds
(returned as the first component), then re-inject the reply through the exact
same `handleIncomingMessage` path used for remote messages. -/
def simulateTypingAndSend (selfUsername : String) (activeChatId : Option String)
    (dir : UserDir) (chatId text : String) (senderId : Option String) (now : Nat)
    (chats : List ChatPreview) (store : MsgStore) :
    Nat × (List ChatPreview × MsgStore) :=
  (botDelay text,
   handleIncomingMessage selfUsername activeChatId dir
     (mkBotMsg chatId text senderId now) chats store)

/-! ### Server-side model (server.js) -/

/-- A row of the server's `users` table. -/
structure DbUser where
  id : String
  username : String
  name : String
  bioText : String
  phone : String
  avatarColor : String
  isPremium : Bool := false
  isAdmin : Bool := false
deriving DecidableEq, Repr

/-- A row of the server's `promo_codes` table. -/
structure PromoCode where
  code : String
  maxUses : Nat
  currentUses : Nat := 0
deriving DecidableEq, Repr

/-- The server's relational state: `users`, `promo_codes`, and the
`user_promo_usage` table of `(user_id, code)` pairs. -/
structure ServerDb where
  users : List DbUser
  promoCodes : List PromoCode
  promoUsage : List (String × String)
deriving DecidableEq, Repr

/-- The `PROMO_RESULT` payload emitted back to the client. -/
structure PromoResult where
  success : Bool
  message : String
deriving DecidableEq, Repr

/-- The `REDEEM_PROMO` handler of server.js: reject unknown codes; reject a
`(user, code)` pair already recorded in `user_promo_usage`; otherwise set the
user's premium flag, record the usage, bump the code's use counter, and
report success. (The global `max_uses` column is never consulted.) -/
def redeemPromo (db : ServerDb) (userId code : String) : ServerDb × PromoResult :=
  match db.promoCodes.find? (fun p => p.code = code) with
  | none => (db, { success := false, message := "Invalid code" })
  | some _ =>
      if db.promoUsage.any (fun u => u.1 = userId && u.2 = code) then
        (db, { success := false, message := "Code already used by you" })
      else
        let users' := db.users.map (fun u =>
          if u.id = userId then { u with isPremium := true } else u)
        let usage' := db.promoUsage ++ [(userId, code)]
        let promos' := db.promoCodes.map (fun p =>
          if p.code = code then { p with currentUses := p.currentUses + 1 } else p)
        ({ users := users', promoCodes := promos', promoUsage := usage' },
         { success := true, message := "Premium Activated!" })


/-- Recursive description of the previews `handleUserSync` appends: one fresh
`syncContact` for every directory peer that is not self and matches no chat
already accumulated (the accumulator is `chats` extended by the previews
appended so far, mirroring the fold in `handleUserSync`). -/
def syncNew (selfUsername : String) (now : Nat) (chats : List ChatPreview) :
    List UserProfile → List ChatPreview
  | [] => []
  | u :: rest =>
      if u.username = selfUsername then syncNew selfUsername now chats rest
      else if chats.any (fun c => c.username = some u.username) then
        syncNew selfUsername now chats rest
      else syncContact u now
        :: syncNew selfUsername now (chats ++ [syncContact u now]) rest

/-- Fixture: an empty user directory. -/
def demoDir : UserDir := fun _ => none

/-- Fixture: an empty message store. -/
def emptyStore : MsgStore := fun _ => []

/-- Fixture: a minimal chat preview with a given id and unread counter. -/
def demoChat (id : String) (unread : Nat) : ChatPreview :=
  { id := id, name := id, color := "bg-gray-500", lastMessage := "",
    timestamp := 0, unreadCount := unread, isOnline := true }

/-- Fixture: a minimal inbound message. -/
def demoIncoming (chatId senderId : String) : Message :=
  { id := "m1", chatId := chatId, text := "hi", sender := .them,
    senderId := some senderId, timestamp := 7, status := .sent }

/-! ### Theorems -/

/-- Claim C10: a NEW_MESSAGE notification whose message `senderId` equals the
local account's username is dropped by the subscribe handler — the chat list
and the message store are left unchanged — and the relay's broadcast keeps
`senderId`, so the broadcast echo of an own message is dropped the same way. -/
theorem c10_self_echo_dropped (selfUsername : String) (activeChatId : Option String)
    (dir : UserDir) (msg : Message) (chats : List ChatPreview) (store : MsgStore)
    (h : msg.senderId = some selfUsername) :
    onNewMessageEvent selfUsername activeChatId dir msg chats store = (chats, store)
    ∧ onNewMessageEvent selfUsername activeChatId dir (serverBroadcastMessage msg)
        chats store = (chats, store) := by
  constructor
  · simp [onNewMessageEvent, h]
  · simp [onNewMessageEvent, serverBroadcastMessage, h]

/-- Witness for C10 at a concrete self-authored message. -/
theorem c10_self_echo_dropped_witness :
    onNewMessageEvent "alice" none (fun _ => none)
      { id := "m1", chatId := "bob", text := "hi", sender := .me,
        senderId := some "alice", timestamp := 5, status := .sent }
      [] (fun _ => []) = ([], fun _ => [])
    ∧ onNewMessageEvent "alice" none (fun _ => none)
        (serverBroadcastMessage
          { id := "m1", chatId := "bob", text := "hi", sender := .me,
            senderId := some "alice", timestamp := 5, status := .sent })
        [] (fun _ => []) = ([], fun _ => []) :=
  c10_self_echo_dropped "alice" none (fun _ => none)
    { id := "m1", chatId := "bob", text := "hi", sender := .me,
      senderId := some "alice", timestamp := 5, status := .sent }
    [] (fun _ => []) rfl

/-- Counterexample to claim C1 as stated: a deliverable message addressed to
"alice" carrying the empty sender id is routed to the literal fallback
"unknown", not to its sender id "". -/
theorem c1_routing_counterexample :
    ({ id := "m9", chatId := "alice", text := "hi", sender := .them,
       senderId := some "", timestamp := 1, status := .sent } : Message).senderId
      = some ""
    ∧ ({ id := "m9", chatId := "alice", text := "hi", sender := .them,
         senderId := some "", timestamp := 1, status := .sent } : Message).chatId
        = "alice"
    ∧ routeTarget "alice"
        { id := "m9", chatId := "alice", text := "hi", sender := .them,
          senderId := some "", timestamp := 1, status := .sent } = "unknown"
    ∧ ("unknown" : String) ≠ "" := by
  refine ⟨rfl, rfl, rfl, by decide⟩

/-- Claim C1 (amended): a message whose conversation id equals the local
account's username is routed to the message's sender id when that id is
present and non-empty (an absent or empty sender id routes to the literal
fallback "unknown"); any other message is routed to its conversation id
unchanged; and when no chat with the routed id exists, a chat preview
carrying that id is created and placed at the front of the chat list. -/
theorem c1_incoming_routing (selfUsername : String) (activeChatId : Option String)
    (dir : UserDir) (msg : Message) (chats : List ChatPreview) (store : MsgStore) :
    (∀ s, msg.senderId = some s → s ≠ "" → msg.chatId = selfUsername →
        routeTarget selfUsername msg = s)
    ∧ ((msg.senderId = none ∨ msg.senderId = some "") → msg.chatId = selfUsername →
        routeTarget selfUsername msg = "unknown")
    ∧ (msg.chatId ≠ selfUsername → routeTarget selfUsername msg = msg.chatId)
    ∧ (chats.find? (fun c => c.id = routeTarget selfUsername msg) = none →
        (handleIncomingMessage selfUsername activeChatId dir msg chats store).1
          = incomingNewChat dir (routeTarget selfUsername msg) msg :: chats
        ∧ (incomingNewChat dir (routeTarget selfUsername msg) msg).id
          = routeTarget selfUsername msg) := by
  refine ⟨?_, ?_, ?_, ?_⟩
  · intro s hs hsne hchat
    simp [routeTarget, orFalsy, hchat, hs, hsne]
  · intro hfalsy hchat
    rcases hfalsy with h | h
    · simp [routeTarget, orFalsy, hchat, h]
    · simp [routeTarget, orFalsy, hchat, h]
  · intro hne
    simp [routeTarget, hne]
  · intro hfind
    constructor
    · simp [handleIncomingMessage, hfind]
    · rfl

/-- Witness for C1 (amended): a message addressed to "alice" from "bob"
routes to "bob" and auto-creates a front chat; an empty sender id routes to
"unknown"; a message to a different conversation id routes unchanged. -/
theorem c1_incoming_routing_witness :
    routeTarget "alice"
      { id := "m1", chatId := "alice", text := "hi", sender := .them,
        senderId := some "bob", timestamp := 7, status := .sent } = "bob"
    ∧ routeTarget "alice"
        { id := "m9", chatId := "alice", text := "hi", sender := .them,
          senderId := some "", timestamp := 1, status := .sent } = "unknown"
    ∧ routeTarget "alice"
        { id := "m2", chatId := "group7", text := "yo", sender := .them,
          senderId := some "bob", timestamp := 8, status := .sent } = "group7"
    ∧ (handleIncomingMessage "alice" none (fun _ => none)
        { id := "m1", chatId := "alice", text := "hi", sender := .them,
          senderId := some "bob", timestamp := 7, status := .sent }
        [] (fun _ => [])).1
        = [incomingNewChat (fun _ => none) "bob"
            { id := "m1", chatId := "alice", text := "hi", sender := .them,
              senderId := some "bob", timestamp := 7, status := .sent }]
    ∧ (incomingNewChat (fun _ => none) "bob"
        { id := "m1", chatId := "alice", text := "hi", sender := .them,
          senderId := some "bob", timestamp := 7, status := .sent }).id = "bob" :=
  ⟨(c1_incoming_routing "alice" none (fun _ => none)
      { id := "m1", chatId := "alice", text := "hi", sender := .them,
        senderId := some "bob", timestamp := 7, status := .sent }
      [] (fun _ => [])).1 "bob" rfl (by decide) rfl,
   (c1_incoming_routing "alice" none (fun _ => none)
      { id := "m9", chatId := "alice", text := "hi", sender := .them,
        senderId := some "", timestamp := 1, status := .sent }
      [] (fun _ => [])).2.1 (Or.inr rfl) rfl,
   (c1_incoming_routing "alice" none (fun _ => none)
      { id := "m2", chatId := "group7", text := "yo", sender := .them,
        senderId := some "bob", timestamp := 8, status := .sent }
      [] (fun _ => [])).2.2.1 (by decide),
   ((c1_incoming_routing "alice" none (fun _ => none)
      { id := "m1", chatId := "alice", text := "hi", sender := .them,
        senderId := some "bob", timestamp := 7, status := .sent }
      [] (fun _ => [])).2.2.2 rfl).1,
   ((c1_incoming_routing "alice" none (fun _ => none)
      { id := "m1", chatId := "alice", text := "hi", sender := .them,
        senderId := some "bob", timestamp := 7, status := .sent }
      [] (fun _ => [])).2.2.2 rfl).2⟩

/-- Claim C2: for an inbound message routed to an existing conversation, the
conversation (now at the front of the list) has its unread counter bumped by
exactly 1 when it is not the active conversation, and kept at 0 when it is
the active one (selection having zeroed it, as `handleSelectChat` does for
the selected chat). -/
theorem c2_unread_counter (selfUsername : String) (activeChatId : Option String)
    (dir : UserDir) (msg : Message) (chats : List ChatPreview) (store : MsgStore)
    (chat : ChatPreview)
    (hfind : chats.find? (fun c => c.id = routeTarget selfUsername msg) = some chat) :
    (activeChatId ≠ some (routeTarget selfUsername msg) →
      ∃ c', (handleIncomingMessage selfUsername activeChatId dir msg chats store).1.head?
          = some c' ∧ c'.id = chat.id ∧ c'.unreadCount = chat.unreadCount + 1)
    ∧ (activeChatId = some (routeTarget selfUsername msg) → chat.unreadCount = 0 →
      ∃ c', (handleIncomingMessage selfUsername activeChatId dir msg chats store).1.head?
          = some c' ∧ c'.id = chat.id ∧ c'.unreadCount = 0)
    ∧ (∀ id chats', ∀ c ∈ (handleSelectChat id chats').2, c.id = id →
        c.unreadCount = 0) := by
  have hred : (handleIncomingMessage selfUsername activeChatId dir msg chats store).1
      = { chat with
          lastMessage := msg.text
          timestamp := msg.timestamp
          unreadCount := if activeChatId = some (routeTarget selfUsername msg)
                         then chat.unreadCount else chat.unreadCount + 1
          sender := some msg.sender }
        :: removeFirst (fun c => c.id = routeTarget selfUsername msg) chats := by
    simp [handleIncomingMessage, hfind]
  refine ⟨?_, ?_, ?_⟩
  · intro hne
    refine ⟨{ chat with
              lastMessage := msg.text
              timestamp := msg.timestamp
              unreadCount := chat.unreadCount + 1
              sender := some msg.sender }, ?_, rfl, rfl⟩
    rw [hred]
    simp [hne]
  · intro heq h0
    refine ⟨{ chat with
              lastMessage := msg.text
              timestamp := msg.timestamp
              unreadCount := chat.unreadCount
              sender := some msg.sender }, ?_, rfl, h0⟩
    rw [hred]
    simp [heq]
  · intro id chats' c hc hid
    simp only [handleSelectChat, List.mem_map] at hc
    obtain ⟨c0, _, hceq⟩ := hc
    by_cases h : c0.id = id
    · rw [if_pos h] at hceq
      subst hceq
      rfl
    · rw [if_neg h] at hceq
      subst hceq
      exact absurd hid h

/-- Witness for C2: a message from "bob" to "alice" bumps the existing "bob"
chat from 2 to 3 unread when inactive, keeps 0 when "bob" is active with 0
unread, and selecting a chat zeroes its counter. -/
theorem c2_unread_counter_witness :
    (∃ c', (handleIncomingMessage "alice" none demoDir (demoIncoming "alice" "bob")
        [demoChat "bob" 2] emptyStore).1.head?
        = some c' ∧ c'.id = "bob" ∧ c'.unreadCount = 3)
    ∧ (∃ c', (handleIncomingMessage "alice" (some "bob") demoDir
        (demoIncoming "alice" "bob") [demoChat "bob" 0] emptyStore).1.head?
        = some c' ∧ c'.id = "bob" ∧ c'.unreadCount = 0)
    ∧ ((demoChat "bob" 0).unreadCount = 0) :=
  ⟨(c2_unread_counter "alice" none demoDir (demoIncoming "alice" "bob")
      [demoChat "bob" 2] emptyStore (demoChat "bob" 2) (by decide)).1 (by decide),
   (c2_unread_counter "alice" (some "bob") demoDir (demoIncoming "alice" "bob")
      [demoChat "bob" 0] emptyStore (demoChat "bob" 0) (by decide)).2.1 rfl rfl,
   (c2_unread_counter "alice" none demoDir (demoIncoming "alice" "bob")
      [demoChat "bob" 2] emptyStore (demoChat "bob" 2) (by decide)).2.2
     "bob" [demoChat "bob" 5] (demoChat "bob" 0) (by decide) rfl⟩

/-- Claim C4: switching the active account away from A persists A's current
chat list, and switching back to A loads exactly that snapshot (persist
followed by load is the identity on A's snapshot; serialization is modelled
as the identity on typed snapshots, faithful to JSON round-tripping of these
plain records). -/
theorem c4_switch_roundtrip (ls : ChatStore) (nowAway nowBack : Nat)
    (accA accB : UserProfile) (chatsA chatsB : List ChatPreview)
    (hne : accA.id ≠ accB.id) :
    (handleSwitchAccount
      (handleSwitchAccount ls nowAway accA chatsA accB).1
      nowBack accB chatsB accA).2.2.1 = chatsA := by
  have hne' : accA.id ≠ accB.id := hne
  simp [handleSwitchAccount, loadChatsForUser, saveChats, hne']

/-- Witness for C4 at two concrete accounts. -/
theorem c4_switch_roundtrip_witness :
    (handleSwitchAccount
      (handleSwitchAccount (fun _ => none) 1
        { id := "alice", name := "Alice", username := "alice", phone := "",
          bioText := "", avatarColor := "red" }
        [demoChat "bob" 2]
        { id := "bob", name := "Bob", username := "bob", phone := "",
          bioText := "", avatarColor := "blue" }).1
      2
      { id := "bob", name := "Bob", username := "bob", phone := "",
        bioText := "", avatarColor := "blue" }
      []
      { id := "alice", name := "Alice", username := "alice", phone := "",
        bioText := "", avatarColor := "red" }).2.2.1 = [demoChat "bob" 2] :=
  c4_switch_roundtrip (fun _ => none) 1 2
    { id := "alice", name := "Alice", username := "alice", phone := "",
      bioText := "", avatarColor := "red" }
    { id := "bob", name := "Bob", username := "bob", phone := "",
      bioText := "", avatarColor := "blue" }
    [demoChat "bob" 2] [] (by decide)

/-- Claim C9: for a user and promo code known to the server with no prior
usage record, the first REDEEM_PROMO succeeds (reporting "Premium Activated!"
and setting the user's premium flag), the second REDEEM_PROMO for the same
pair fails with the already-used message, and redeeming an unknown code
always fails. -/
theorem c9_promo_redeem (db : ServerDb) (userId code : String) (pc : PromoCode)
    (hcode : db.promoCodes.find? (fun p => p.code = code) = some pc)
    (huser : ∃ u ∈ db.users, u.id = userId)
    (hfresh : db.promoUsage.any (fun u => u.1 = userId && u.2 = code) = false) :
    (redeemPromo db userId code).2.success = true
    ∧ (redeemPromo db userId code).2.message = "Premium Activated!"
    ∧ (∃ u ∈ (redeemPromo db userId code).1.users, u.id = userId ∧ u.isPremium = true)
    ∧ (∀ u ∈ (redeemPromo db userId code).1.users, u.id = userId → u.isPremium = true)
    ∧ (redeemPromo (redeemPromo db userId code).1 userId code).2
        = { success := false, message := "Code already used by you" }
    ∧ (∀ (db' : ServerDb) (c' : String),
        db'.promoCodes.find? (fun p => p.code = c') = none →
        (redeemPromo db' userId c').2.success = false) := by
  have hbranch : redeemPromo db userId code
      = ({ users := db.users.map (fun u =>
             if u.id = userId then { u with isPremium := true } else u),
           promoCodes := db.promoCodes.map (fun p =>
             if p.code = code then { p with currentUses := p.currentUses + 1 } else p),
           promoUsage := db.promoUsage ++ [(userId, code)] },
         { success := true, message := "Premium Activated!" }) := by
    simp [redeemPromo, hcode, hfresh]
  refine ⟨?_, ?_, ?_, ?_, ?_, ?_⟩
  · rw [hbranch]
  · rw [hbranch]
  · obtain ⟨u0, hu0, hid⟩ := huser
    rw [hbranch]
    refine ⟨{ u0 with isPremium := true }, ?_, hid, rfl⟩
    have hmem := List.mem_map_of_mem
      (fun u => if u.id = userId then { u with isPremium := true } else u) hu0
    simpa [hid] using hmem
  · rw [hbranch]
    intro u hu hid
    simp only [List.mem_map] at hu
    obtain ⟨u0, _, hequ⟩ := hu
    by_cases h : u0.id = userId
    · rw [if_pos h] at hequ
      subst hequ
      rfl
    · rw [if_neg h] at hequ
      subst hequ
      exact absurd hid h
  · rw [hbranch]
    simp only [redeemPromo]
    rw [List.find?_map]
    have hcomp : ((fun p => decide (p.code = code)) ∘ (fun p =>
        if p.code = code then { p with currentUses := p.currentUses + 1 } else p))
        = (fun p : PromoCode => decide (p.code = code)) := by
      funext q
      by_cases h : q.code = code
      · simp [h]
      · simp [h]
    rw [hcomp, hcode]
    simp [List.any_append]
  · intro db' c' hnone
    simp [redeemPromo, hnone]

/-- Witness for C9: redeeming "welcome10" for user "u1" on a one-user,
one-code database. -/
theorem c9_promo_redeem_witness :
    (redeemPromo
      { users := [{ id := "u1", username := "alice", name := "Alice",
                    bioText := "", phone := "", avatarColor := "red" }],
        promoCodes := [{ code := "welcome10", maxUses := 999999, currentUses := 0 }],
        promoUsage := [] } "u1" "welcome10").2.success = true
    ∧ (redeemPromo
      { users := [{ id := "u1", username := "alice", name := "Alice",
                    bioText := "", phone := "", avatarColor := "red" }],
        promoCodes := [{ code := "welcome10", maxUses := 999999, currentUses := 0 }],
        promoUsage := [] } "u1" "welcome10").2.message = "Premium Activated!"
    ∧ (∃ u ∈ (redeemPromo
      { users := [{ id := "u1", username := "alice", name := "Alice",
                    bioText := "", phone := "", avatarColor := "red" }],
        promoCodes := [{ code := "welcome10", maxUses := 999999, currentUses := 0 }],
        promoUsage := [] } "u1" "welcome10").1.users, u.id = "u1" ∧ u.isPremium = true)
    ∧ (redeemPromo (redeemPromo
      { users := [{ id := "u1", username := "alice", name := "Alice",
                    bioText := "", phone := "", avatarColor := "red" }],
        promoCodes := [{ code := "welcome10", maxUses := 999999, currentUses := 0 }],
        promoUsage := [] } "u1" "welcome10").1 "u1" "welcome10").2
        = { success := false, message := "Code already used by you" } := by
  have h := c9_promo_redeem
    { users := [{ id := "u1", username := "alice", name := "Alice",
                  bioText := "", phone := "", avatarColor := "red" }],
      promoCodes := [{ code := "welcome10", maxUses := 999999, currentUses := 0 }],
      promoUsage := [] } "u1" "welcome10"
    { code := "welcome10", maxUses := 999999, currentUses := 0 }
    (by decide)
    ⟨{ id := "u1", username := "alice", name := "Alice",
       bioText := "", phone := "", avatarColor := "red" }, by decide, rfl⟩
    rfl
  exact ⟨h.1, h.2.1, h.2.2.1, h.2.2.2.2.1⟩

/-- Counterexample to claim C5 as stated: a bot-flagged, non-group chat whose
id is the empty string (≠ "1", so inside the claim's domain) never produces a
generated reply — the send guard `if (!activeChatId || ...) return;` treats
the empty active id as falsy and returns before the bot step. -/
theorem c5_empty_id_counterexample :
    ({ demoChat "" 0 with isBot := true }).isBot = true
    ∧ ({ demoChat "" 0 with isBot := true }).isGroup = false
    ∧ ({ demoChat "" 0 with isBot := true }).id ≠ "1"
    ∧ (handleSendMessage
        { id := "alice", name := "Alice", username := "alice", phone := "",
          bioText := "", avatarColor := "red" }
        [] (some "") 9 "hello"
        [{ demoChat "" 0 with isBot := true }] emptyStore (fun _ => none)).botTarget
      = none := by
  refine ⟨rfl, rfl, by decide, rfl⟩

/-- Claim C5 (amended): a send into a bot-flagged, non-group conversation
whose id is neither the reserved self-chat id "1" nor the empty string (the
send guard drops empty active ids as falsy) schedules exactly one generated
reply (`botTarget = some a`); any other conversation schedules none; and the
reply is re-injected through the same `handleIncomingMessage` used for remote
messages after a delay of 30 ms per reply character clamped to
[1500 ms, 6000 ms]. -/
theorem c5_bot_reply (self : UserProfile) (accounts : List UserProfile) (a : String)
    (now : Nat) (text : String) (chats : List ChatPreview) (store : MsgStore)
    (ls : ChatStore) (chat : ChatPreview)
    (ha : a ≠ "")
    (hfind : chats.find? (fun c => c.id = a) = some chat) :
    (chat.isBot = true → chat.isGroup = false → chat.id ≠ "1" →
      (handleSendMessage self accounts (some a) now text chats store ls).botTarget
        = some a)
    ∧ ((chat.isBot = false ∨ chat.isGroup = true ∨ chat.id = "1") →
      (handleSendMessage self accounts (some a) now text chats store ls).botTarget
        = none)
    ∧ (∀ (activeChatId : Option String) (dir : UserDir) (reply : String)
        (senderId : Option String) (now' : Nat) (chats' : List ChatPreview)
        (store' : MsgStore),
        simulateTypingAndSend self.username activeChatId dir a reply senderId now'
            chats' store'
          = (min (max (reply.length * 30) 1500) 6000,
             handleIncomingMessage self.username activeChatId dir
               (mkBotMsg a reply senderId now') chats' store')
        ∧ 1500 ≤ (simulateTypingAndSend self.username activeChatId dir a reply
            senderId now' chats' store').1
        ∧ (simulateTypingAndSend self.username activeChatId dir a reply
            senderId now' chats' store').1 ≤ 6000) := by
  refine ⟨?_, ?_, ?_⟩
  · intro hb hg h1
    simp [handleSendMessage, ha, hfind, hb, hg, h1]
  · intro hcase
    rcases hcase with hb | hg | h1
    · simp [handleSendMessage, ha, hfind, hb]
    · simp [handleSendMessage, ha, hfind, hg]
    · simp [handleSendMessage, ha, hfind, h1]
  · intro activeChatId dir reply senderId now' chats' store'
    refine ⟨rfl, ?_, ?_⟩
    · show 1500 ≤ botDelay reply
      unfold botDelay
      omega
    · show botDelay reply ≤ 6000
      unfold botDelay
      omega

/-- Witness for C5: sending to the bot chat "2" schedules one reply, sending
to plain contact "bob" schedules none, and a 2-character reply is re-injected
after the clamped minimum delay of 1500 ms. -/
theorem c5_bot_reply_witness :
    (handleSendMessage
      { id := "alice", name := "Alice", username := "alice", phone := "",
        bioText := "", avatarColor := "red" }
      [] (some "2") 9 "hello"
      [{ demoChat "2" 0 with isBot := true }] emptyStore (fun _ => none)).botTarget
      = some "2"
    ∧ (handleSendMessage
      { id := "alice", name := "Alice", username := "alice", phone := "",
        bioText := "", avatarColor := "red" }
      [] (some "bob") 9 "hello"
      [demoChat "bob" 0] emptyStore (fun _ => none)).botTarget = none
    ∧ simulateTypingAndSend "alice" none demoDir "2" "ok" (some "2") 10
        [] emptyStore
      = (1500,
         handleIncomingMessage "alice" none demoDir (mkBotMsg "2" "ok" (some "2") 10)
           [] emptyStore)
    ∧ 1500 ≤ (simulateTypingAndSend "alice" none demoDir "2" "ok" (some "2") 10
        [] emptyStore).1
    ∧ (simulateTypingAndSend "alice" none demoDir "2" "ok" (some "2") 10
        [] emptyStore).1 ≤ 6000 :=
  ⟨(c5_bot_reply
      { id := "alice", name := "Alice", username := "alice", phone := "",
        bioText := "", avatarColor := "red" }
      [] "2" 9 "hello" [{ demoChat "2" 0 with isBot := true }] emptyStore
      (fun _ => none) { demoChat "2" 0 with isBot := true } (by decide) (by decide)).1
      rfl rfl (by decide),
   (c5_bot_reply
      { id := "alice", name := "Alice", username := "alice", phone := "",
        bioText := "", avatarColor := "red" }
      [] "bob" 9 "hello" [demoChat "bob" 0] emptyStore
      (fun _ => none) (demoChat "bob" 0) (by decide) (by decide)).2.1 (Or.inl rfl),
   ((c5_bot_reply
      { id := "alice", name := "Alice", username := "alice", phone := "",
        bioText := "", avatarColor := "red" }
      [] "2" 9 "hello" [{ demoChat "2" 0 with isBot := true }] emptyStore
      (fun _ => none) { demoChat "2" 0 with isBot := true } (by decide) (by decide)).2.2
      none demoDir "ok" (some "2") 10 [] emptyStore).1,
   ((c5_bot_reply
      { id := "alice", name := "Alice", username := "alice", phone := "",
        bioText := "", avatarColor := "red" }
      [] "2" 9 "hello" [{ demoChat "2" 0 with isBot := true }] emptyStore
      (fun _ => none) { demoChat "2" 0 with isBot := true } (by decide) (by decide)).2.2
      none demoDir "ok" (some "2") 10 [] emptyStore).2.1,
   ((c5_bot_reply
      { id := "alice", name := "Alice", username := "alice", phone := "",
        bioText := "", avatarColor := "red" }
      [] "2" 9 "hello" [{ demoChat "2" 0 with isBot := true }] emptyStore
      (fun _ => none) { demoChat "2" 0 with isBot := true } (by decide) (by decide)).2.2
      none demoDir "ok" (some "2") 10 [] emptyStore).2.2⟩

/-- Claim C6: a new-peer event for an unseen, non-self peer prepends a fresh
chat preview and seeds the peer's conversation with exactly one system
message; if a chat with that username exists the event is a no-op on both
stores, so handling the same join event twice equals handling it once. -/
theorem c6_peer_joined (selfUsername joinedText : String) (now : Nat)
    (profile : UserProfile) (chats : List ChatPreview) (store : MsgStore) :
    (profile.username ≠ selfUsername →
      chats.find? (fun c => c.username = some profile.username) = none →
      handleNewUserJoined selfUsername joinedText now profile chats store
        = (joinContact profile now :: chats,
           setMsgs store profile.username [joinSystemMsg profile joinedText now])
      ∧ (setMsgs store profile.username [joinSystemMsg profile joinedText now])
          profile.username = [joinSystemMsg profile joinedText now])
    ∧ (∀ c, chats.find? (fun c => c.username = some profile.username) = some c →
        handleNewUserJoined selfUsername joinedText now profile chats store
          = (chats, store))
    ∧ (∀ (now₂ : Nat) (text₂ : String),
        handleNewUserJoined selfUsername text₂ now₂ profile
          (handleNewUserJoined selfUsername joinedText now profile chats store).1
          (handleNewUserJoined selfUsername joinedText now profile chats store).2
        = handleNewUserJoined selfUsername joinedText now profile chats store) := by
  refine ⟨?_, ?_, ?_⟩
  · intro hne hnone
    refine ⟨?_, ?_⟩
    · simp [handleNewUserJoined, hne, hnone]
    · simp [setMsgs]
  · intro c hc
    by_cases hself : profile.username = selfUsername
    · simp [handleNewUserJoined, hself]
    · simp [handleNewUserJoined, hself, hc]
  · intro now₂ text₂
    by_cases hself : profile.username = selfUsername
    · simp [handleNewUserJoined, hself]
    · cases hc : chats.find? (fun c => c.username = some profile.username) with
      | some c =>
          have h1 : handleNewUserJoined selfUsername joinedText now profile chats store
              = (chats, store) := by
            simp [handleNewUserJoined, hself, hc]
          rw [h1]
          simp [handleNewUserJoined, hself, hc]
      | none =>
          have h1 : handleNewUserJoined selfUsername joinedText now profile chats store
              = (joinContact profile now :: chats,
                 setMsgs store profile.username
                   [joinSystemMsg profile joinedText now]) := by
            simp [handleNewUserJoined, hself, hc]
          rw [h1]
          have hfind2 : (joinContact profile now :: chats).find?
              (fun c => c.username = some profile.username)
              = some (joinContact profile now) :=
            List.find?_cons_of_pos _ (by simp [joinContact])
          simp [handleNewUserJoined, hself, hfind2]

/-- Witness for C6: peer "bob" joining alice's empty chat list seeds one
system message and prepends one chat; a second identical event is a no-op. -/
theorem c6_peer_joined_witness :
    (handleNewUserJoined "alice" "joined RedGram!" 4
      { id := "bob", name := "Bob", username := "bob", phone := "",
        bioText := "", avatarColor := "blue" } [] emptyStore
      = (joinContact
          { id := "bob", name := "Bob", username := "bob", phone := "",
            bioText := "", avatarColor := "blue" } 4 :: [],
         setMsgs emptyStore "bob"
           [joinSystemMsg
             { id := "bob", name := "Bob", username := "bob", phone := "",
               bioText := "", avatarColor := "blue" } "joined RedGram!" 4])
      ∧ (setMsgs emptyStore "bob"
           [joinSystemMsg
             { id := "bob", name := "Bob", username := "bob", phone := "",
               bioText := "", avatarColor := "blue" } "joined RedGram!" 4]) "bob"
          = [joinSystemMsg
              { id := "bob", name := "Bob", username := "bob", phone := "",
                bioText := "", avatarColor := "blue" } "joined RedGram!" 4])
    ∧ handleNewUserJoined "alice" "joined again" 6
        { id := "bob", name := "Bob", username := "bob", phone := "",
          bioText := "", avatarColor := "blue" }
        (handleNewUserJoined "alice" "joined RedGram!" 4
          { id := "bob", name := "Bob", username := "bob", phone := "",
            bioText := "", avatarColor := "blue" } [] emptyStore).1
        (handleNewUserJoined "alice" "joined RedGram!" 4
          { id := "bob", name := "Bob", username := "bob", phone := "",
            bioText := "", avatarColor := "blue" } [] emptyStore).2
      = handleNewUserJoined "alice" "joined RedGram!" 4
          { id := "bob", name := "Bob", username := "bob", phone := "",
            bioText := "", avatarColor := "blue" } [] emptyStore :=
  ⟨(c6_peer_joined "alice" "joined RedGram!" 4
      { id := "bob", name := "Bob", username := "bob", phone := "",
        bioText := "", avatarColor := "blue" } [] emptyStore).1 (by decide) rfl,
   (c6_peer_joined "alice" "joined RedGram!" 4
      { id := "bob", name := "Bob", username := "bob", phone := "",
        bioText := "", avatarColor := "blue" } [] emptyStore).2.2 6 "joined again"⟩

/-- After the marking pass of the read-receipts effect, no unread counterpart
message remains: every unread message's id was collected into `idsToMark`, so
each such message got status `read`. -/
theorem unreadOf_after_mark (selfUsername : String) (msgs : List Message) :
    unreadOf selfUsername (msgs.map (fun m =>
      if ((unreadOf selfUsername msgs).map (fun m => m.id)).contains m.id
      then { m with status := Status.read } else m)) = [] := by
  simp only [unreadOf]
  rw [List.filter_eq_nil_iff]
  intro b hb
  simp only [List.mem_map] at hb
  obtain ⟨m, hm, rfl⟩ := hb
  split
  · simp
  · rename_i hc
    intro hpred
    apply hc
    have hmemf : m ∈ List.filter
        (fun m => !isMine selfUsername m && decide (m.status ≠ Status.read)) msgs :=
      List.mem_filter.mpr ⟨hm, hpred⟩
    simpa using List.mem_map_of_mem (fun m => m.id) hmemf

/-- Counterexample to claim C3 as stated: a conversation with the empty id
(creatable by an inbound message with empty chatId) holding an unread
counterpart message emits no receipt when activated — the effect's truthiness
guard `if (activeChatId && ...)` treats the empty active id as falsy. -/
theorem c3_empty_active_counterexample :
    unreadOf "alice"
      ((fun k => if k = "" then [demoIncoming "" "bob"] else []) "") ≠ []
    ∧ (runReadEffect "alice" (some "") [demoChat "" 1]
        (fun k => if k = "" then [demoIncoming "" "bob"] else [])).2.2 = none := by
  refine ⟨by decide, rfl⟩

/-- Claim C3 (amended): activating a conversation with a non-empty id and at
least one unread counterpart message emits exactly one read-receipt carrying
the ids of all unread messages, and re-running the effect on the resulting
state (same active conversation, no new messages) emits nothing; an
empty-id conversation never emits (the effect's falsy guard skips it). -/
theorem c3_read_receipt_once (selfUsername a : String) (chats : List ChatPreview)
    (store : MsgStore)
    (ha : a ≠ "")
    (hunread : unreadOf selfUsername (store a) ≠ []) :
    (runReadEffect selfUsername (some a) chats store).2.2
      = some (a, (unreadOf selfUsername (store a)).map (fun m => m.id))
    ∧ (runReadEffect selfUsername (some a)
        (runReadEffect selfUsername (some a) chats store).1
        (runReadEffect selfUsername (some a) chats store).2.1).2.2 = none := by
  have hne : (unreadOf selfUsername (store a)).isEmpty = false :=
    List.isEmpty_eq_false.mpr hunread
  have hgen : ∀ (chats' : List ChatPreview) (store'' : MsgStore),
      unreadOf selfUsername (store'' a) = [] →
      (runReadEffect selfUsername (some a) chats' store'').2.2 = none := by
    intro chats' store'' h
    simp only [runReadEffect]
    rw [if_neg ha]
    simp [h]
  have hs : (runReadEffect selfUsername (some a) chats store).2.1 a
      = (store a).map (fun m =>
          if ((unreadOf selfUsername (store a)).map (fun m => m.id)).contains m.id
          then { m with status := Status.read } else m) := by
    simp only [runReadEffect]
    rw [if_neg ha]
    simp only [hne, Bool.false_eq_true, if_false, setMsgs, if_pos]
  constructor
  · simp only [runReadEffect]
    rw [if_neg ha]
    simp only [hne]
    simp
  · exact hgen _ _ (by rw [hs]; exact unreadOf_after_mark selfUsername (store a))

/-- Witness for C3: one unread message from "bob" produces one receipt with
its id; a re-run produces none. -/
theorem c3_read_receipt_once_witness :
    (runReadEffect "alice" (some "bob") [demoChat "bob" 1]
      (fun k => if k = "bob" then [demoIncoming "alice" "bob"] else [])).2.2
      = some ("bob", ["m1"])
    ∧ (runReadEffect "alice" (some "bob")
        (runReadEffect "alice" (some "bob") [demoChat "bob" 1]
          (fun k => if k = "bob" then [demoIncoming "alice" "bob"] else [])).1
        (runReadEffect "alice" (some "bob") [demoChat "bob" 1]
          (fun k => if k = "bob" then [demoIncoming "alice" "bob"] else [])).2.1).2.2
      = none :=
  c3_read_receipt_once "alice" "bob" [demoChat "bob" 1]
    (fun k => if k = "bob" then [demoIncoming "alice" "bob"] else [])
    (by decide) (by decide)

/-- One step of the `handleUserSync` fold. -/
theorem handleUserSync_cons (selfUsername : String) (now : Nat) (u : UserProfile)
    (rest : List UserProfile) (chats : List ChatPreview) :
    handleUserSync selfUsername now (u :: rest) chats
      = handleUserSync selfUsername now rest
          (if u.username = selfUsername then chats
           else if chats.any (fun c => c.username = some u.username) then chats
           else chats ++ [syncContact u now]) := rfl

/-- `handleUserSync` only appends: the result is the original chat list
followed by the `syncNew` previews. -/
theorem handleUserSync_eq (selfUsername : String) (now : Nat) :
    ∀ (users : List UserProfile) (chats : List ChatPreview),
    handleUserSync selfUsername now users chats
      = chats ++ syncNew selfUsername now chats users := by
  intro users
  induction users with
  | nil =>
      intro chats
      simp [handleUserSync, syncNew]
  | cons u rest ih =>
      intro chats
      rw [handleUserSync_cons]
      simp only [syncNew]
      by_cases hself : u.username = selfUsername
      · rw [if_pos hself, if_pos hself, ih chats]
      · rw [if_neg hself, if_neg hself]
        by_cases hany : chats.any (fun c => c.username = some u.username) = true
        · rw [if_pos hany, if_pos hany, ih chats]
        · rw [if_neg hany, if_neg hany, ih (chats ++ [syncContact u now])]
          simp

/-- The appended previews appear in directory order: `syncNew` is a sublist
of the directory mapped through `syncContact`. -/
theorem syncNew_sublist (selfUsername : String) (now : Nat) :
    ∀ (users : List UserProfile) (chats : List ChatPreview),
    (syncNew selfUsername now chats users).Sublist
      (users.map (fun u => syncContact u now)) := by
  intro users
  induction users with
  | nil =>
      intro chats
      simp [syncNew]
  | cons u rest ih =>
      intro chats
      simp only [syncNew, List.map_cons]
      by_cases hself : u.username = selfUsername
      · rw [if_pos hself]
        exact (ih chats).cons _
      · rw [if_neg hself]
        by_cases hany : chats.any (fun c => c.username = some u.username) = true
        · rw [if_pos hany]
          exact (ih chats).cons _
        · rw [if_neg hany]
          exact (ih _).cons₂ _

/-- Every appended preview starts with a zero unread counter. -/
theorem syncNew_unread_zero (selfUsername : String) (now : Nat) :
    ∀ (users : List UserProfile) (chats : List ChatPreview),
    ∀ c ∈ syncNew selfUsername now chats users, c.unreadCount = 0 := by
  intro users
  induction users with
  | nil =>
      intro chats c hc
      simp [syncNew] at hc
  | cons u rest ih =>
      intro chats c hc
      simp only [syncNew] at hc
      split at hc
      · exact ih chats c hc
      · split at hc
        · exact ih chats c hc
        · rcases List.mem_cons.mp hc with h | h
          · rw [h]
            rfl
          · exact ih _ c h

/-- Every appended preview's username matches no chat already in the list. -/
theorem syncNew_fresh (selfUsername : String) (now : Nat) :
    ∀ (users : List UserProfile) (chats : List ChatPreview),
    ∀ c ∈ syncNew selfUsername now chats users, ∀ c' ∈ chats,
      c'.username ≠ c.username := by
  intro users
  induction users with
  | nil =>
      intro chats c hc
      simp [syncNew] at hc
  | cons u rest ih =>
      intro chats c hc c' hc'
      simp only [syncNew] at hc
      split at hc
      · exact ih chats c hc c' hc'
      · split at hc
        · exact ih chats c hc c' hc'
        · rename_i hany
          rcases List.mem_cons.mp hc with h | h
          · rw [h]
            intro heq
            apply hany
            exact List.any_eq_true.mpr ⟨c', hc', by simp [heq, syncContact]⟩
          · exact ih _ c h c' (List.mem_append_left _ hc')

/-- A username match in the accumulator survives the rest of the sync fold. -/
theorem handleUserSync_any_mono (selfUsername : String) (now : Nat)
    (users : List UserProfile) (chats : List ChatPreview) (p : ChatPreview → Bool)
    (h : chats.any p = true) :
    (handleUserSync selfUsername now users chats).any p = true := by
  rw [handleUserSync_eq, List.any_append, h, Bool.true_or]

/-- After a sync, every non-self directory peer has a matching chat. -/
theorem handleUserSync_complete (selfUsername : String) (now : Nat) :
    ∀ (users : List UserProfile) (chats : List ChatPreview),
    ∀ u ∈ users, u.username ≠ selfUsername →
    (handleUserSync selfUsername now users chats).any
      (fun c => c.username = some u.username) = true := by
  intro users
  induction users with
  | nil =>
      intro chats u hu
      exact absurd hu (List.not_mem_nil u)
  | cons u' rest ih =>
      intro chats u hu hne
      rw [handleUserSync_cons]
      rcases List.mem_cons.mp hu with h | h
      · subst h
        rw [if_neg hne]
        by_cases hany : chats.any (fun c => c.username = some u.username) = true
        · rw [if_pos hany]
          exact handleUserSync_any_mono selfUsername now rest chats _ hany
        · rw [if_neg hany]
          apply handleUserSync_any_mono
          rw [List.any_append]
          have : ([syncContact u now].any fun c => c.username = some u.username)
              = true := by
            simp [syncContact]
          rw [this, Bool.or_true]
      · split
        · exact ih chats u h hne
        · split
          · exact ih chats u h hne
          · exact ih _ u h hne

/-- Claim C7: a full directory snapshot appends (never reorders) one fresh
preview with unread count 0 for each listed peer that is not self and matches
no existing chat by username, in directory order, after all existing chats;
afterwards every non-self listed peer has a matching chat. -/
theorem c7_user_sync (selfUsername : String) (now : Nat)
    (users : List UserProfile) (chats : List ChatPreview) :
    handleUserSync selfUsername now users chats
      = chats ++ syncNew selfUsername now chats users
    ∧ (syncNew selfUsername now chats users).Sublist
        (users.map (fun u => syncContact u now))
    ∧ (∀ c ∈ syncNew selfUsername now chats users, c.unreadCount = 0)
    ∧ (∀ c ∈ syncNew selfUsername now chats users, ∀ c' ∈ chats,
        c'.username ≠ c.username)
    ∧ (∀ u ∈ users, u.username ≠ selfUsername →
        (handleUserSync selfUsername now users chats).any
          (fun c => c.username = some u.username) = true) :=
  ⟨handleUserSync_eq selfUsername now users chats,
   syncNew_sublist selfUsername now users chats,
   syncNew_unread_zero selfUsername now users chats,
   syncNew_fresh selfUsername now users chats,
   handleUserSync_complete selfUsername now users chats⟩

/-- Witness for C7: syncing a directory holding self and "bob" against a list
holding only "carl" appends exactly the "bob" preview with zero unread. -/
theorem c7_user_sync_witness :
    handleUserSync "alice" 3
      [{ id := "alice", name := "Alice", username := "alice", phone := "",
         bioText := "", avatarColor := "red" },
       { id := "bob", name := "Bob", username := "bob", phone := "",
         bioText := "", avatarColor := "blue" }]
      [{ demoChat "carl" 1 with username := some "carl" }]
      = [{ demoChat "carl" 1 with username := some "carl" }]
        ++ [syncContact
             { id := "bob", name := "Bob", username := "bob", phone := "",
               bioText := "", avatarColor := "blue" } 3]
    ∧ (syncContact
        { id := "bob", name := "Bob", username := "bob", phone := "",
          bioText := "", avatarColor := "blue" } 3).unreadCount = 0
    ∧ (handleUserSync "alice" 3
        [{ id := "alice", name := "Alice", username := "alice", phone := "",
           bioText := "", avatarColor := "red" },
         { id := "bob", name := "Bob", username := "bob", phone := "",
           bioText := "", avatarColor := "blue" }]
        [{ demoChat "carl" 1 with username := some "carl" }]).any
        (fun c => c.username = some "bob") = true :=
  ⟨(c7_user_sync "alice" 3
      [{ id := "alice", name := "Alice", username := "alice", phone := "",
         bioText := "", avatarColor := "red" },
       { id := "bob", name := "Bob", username := "bob", phone := "",
         bioText := "", avatarColor := "blue" }]
      [{ demoChat "carl" 1 with username := some "carl" }]).1,
   (c7_user_sync "alice" 3
      [{ id := "alice", name := "Alice", username := "alice", phone := "",
         bioText := "", avatarColor := "red" },
       { id := "bob", name := "Bob", username := "bob", phone := "",
         bioText := "", avatarColor := "blue" }]
      [{ demoChat "carl" 1 with username := some "carl" }]).2.2.1
     (syncContact
       { id := "bob", name := "Bob", username := "bob", phone := "",
         bioText := "", avatarColor := "blue" } 3) (by decide),
   (c7_user_sync "alice" 3
      [{ id := "alice", name := "Alice", username := "alice", phone := "",
         bioText := "", avatarColor := "red" },
       { id := "bob", name := "Bob", username := "bob", phone := "",
         bioText := "", avatarColor := "blue" }]
      [{ demoChat "carl" 1 with username := some "carl" }]).2.2.2.2
     { id := "bob", name := "Bob", username := "bob", phone := "",
       bioText := "", avatarColor := "blue" } (by decide) (by decide)⟩

/-- Appending messages to one key of the store keeps every existing message. -/
theorem read_preserved_append (store : MsgStore) (k : String) (l : List Message)
    (k' : String) (m : Message) (hm : m ∈ store k') :
    m ∈ (setMsgs store k (store k ++ l)) k' := by
  by_cases h : k' = k
  · subst h
    have hk : (setMsgs store k' (store k' ++ l)) k' = store k' ++ l := by
      simp [setMsgs]
    rw [hk]
    exact List.mem_append_left _ hm
  · have hk : (setMsgs store k (store k ++ l)) k' = store k' := by
      simp [setMsgs, h]
    rw [hk]
    exact hm

/-- A read message survives a status-marking map with its id and read status. -/
theorem read_preserved_mark (msgs : List Message) (ids : List String) (m : Message)
    (hm : m ∈ msgs) (hread : m.status = Status.read) :
    ∃ m', m' ∈ msgs.map (fun m =>
        if ids.contains m.id then { m with status := Status.read } else m)
      ∧ m'.id = m.id ∧ m'.status = Status.read := by
  have hmem : (if ids.contains m.id then { m with status := Status.read } else m)
      ∈ msgs.map (fun m =>
        if ids.contains m.id then { m with status := Status.read } else m) :=
    List.mem_map_of_mem _ hm
  by_cases hc : ids.contains m.id = true
  · rw [if_pos hc] at hmem
    exact ⟨{ m with status := Status.read }, hmem, rfl, rfl⟩
  · rw [if_neg hc] at hmem
    exact ⟨m, hmem, rfl, hread⟩

/-- A read message survives a keyed status-marking store update. -/
theorem read_preserved_setMark (store : MsgStore) (t : String) (ids : List String)
    (k : String) (m : Message) (hm : m ∈ store k) (hread : m.status = Status.read) :
    ∃ m', m' ∈ (setMsgs store t ((store t).map (fun m =>
        if ids.contains m.id then { m with status := Status.read } else m))) k
      ∧ m'.id = m.id ∧ m'.status = Status.read := by
  by_cases hk : k = t
  · subst hk
    have heq : (setMsgs store k ((store k).map (fun m =>
        if ids.contains m.id then { m with status := Status.read } else m))) k
        = (store k).map (fun m =>
            if ids.contains m.id then { m with status := Status.read } else m) := by
      simp [setMsgs]
    rw [heq]
    exact read_preserved_mark (store k) ids m hm hread
  · have heq : (setMsgs store t ((store t).map (fun m =>
        if ids.contains m.id then { m with status := Status.read } else m))) k
        = store k := by
      simp [setMsgs, hk]
    rw [heq]
    exact ⟨m, hm, rfl, hread⟩

/-- Claim C8: a message whose status is already `read` keeps a read-status
copy (same id) under each Controller operation — inbound handling, inbound
read-receipt application, the active-conversation read-marking effect, and
outbound send; statuses never regress to `sent`/`delivered`. -/
theorem c8_read_monotone :
    (∀ (selfUsername : String) (activeChatId : Option String) (dir : UserDir)
       (msg : Message) (chats : List ChatPreview) (store : MsgStore)
       (k : String) (m : Message), m ∈ store k → m.status = Status.read →
       ∃ m', m' ∈ (handleIncomingMessage selfUsername activeChatId dir msg chats store).2 k
         ∧ m'.id = m.id ∧ m'.status = Status.read)
    ∧ (∀ (chats : List ChatPreview) (chatId : String) (messageIds : List String)
         (readerId : String) (store : MsgStore) (k : String) (m : Message),
         m ∈ store k → m.status = Status.read →
         ∃ m', m' ∈ handleReadReceipt chats chatId messageIds readerId store k
           ∧ m'.id = m.id ∧ m'.status = Status.read)
    ∧ (∀ (selfUsername : String) (activeChatId : Option String)
         (chats : List ChatPreview) (store : MsgStore) (k : String) (m : Message),
         m ∈ store k → m.status = Status.read →
         ∃ m', m' ∈ (runReadEffect selfUsername activeChatId chats store).2.1 k
           ∧ m'.id = m.id ∧ m'.status = Status.read)
    ∧ (∀ (self : UserProfile) (accounts : List UserProfile)
         (activeChatId : Option String) (now : Nat) (text : String)
         (chats : List ChatPreview) (store : MsgStore) (ls : ChatStore)
         (k : String) (m : Message),
         m ∈ store k → m.status = Status.read →
         ∃ m', m' ∈ (handleSendMessage self accounts activeChatId now text chats store ls).store k
           ∧ m'.id = m.id ∧ m'.status = Status.read) := by
  refine ⟨?_, ?_, ?_, ?_⟩
  · intro selfUsername activeChatId dir msg chats store k m hm hread
    exact ⟨m, read_preserved_append store (routeTarget selfUsername msg) [msg] k m hm,
      rfl, hread⟩
  · intro chats chatId messageIds readerId store k m hm hread
    simp only [handleReadReceipt]
    split
    · exact read_preserved_setMark store _ messageIds k m hm hread
    · exact ⟨m, hm, rfl, hread⟩
  · intro selfUsername activeChatId chats store k m hm hread
    cases activeChatId with
    | none => exact ⟨m, hm, rfl, hread⟩
    | some a =>
        simp only [runReadEffect]
        split
        · exact ⟨m, hm, rfl, hread⟩
        · split
          · exact ⟨m, hm, rfl, hread⟩
          · exact read_preserved_setMark store a _ k m hm hread
  · intro self accounts activeChatId now text chats store ls k m hm hread
    cases activeChatId with
    | none => exact ⟨m, hm, rfl, hread⟩
    | some a =>
        by_cases ha : a = ""
        · simp only [handleSendMessage, if_pos ha]
          exact ⟨m, hm, rfl, hread⟩
        · cases hfind : chats.find? (fun c => c.id = a) with
          | none =>
              simp only [handleSendMessage, if_neg ha, hfind]
              exact ⟨m, hm, rfl, hread⟩
          | some chat =>
              simp only [handleSendMessage, if_neg ha, hfind]
              split
              · exact ⟨m, read_preserved_append store a _ k m hm, rfl, hread⟩
              · refine ⟨m, ?_, rfl, hread⟩
                apply read_preserved_append
                exact read_preserved_append store a _ k m hm

/-- Witness for C8: an already-read message in "bob"'s thread keeps a read
copy across all four operations. -/
theorem c8_read_monotone_witness :
    (∃ m', m' ∈ (handleIncomingMessage "alice" none demoDir
        (demoIncoming "alice" "bob")
        []
        (fun k => if k = "bob"
          then [{ demoIncoming "alice" "bob" with status := Status.read }]
          else [])).2 "bob"
      ∧ m'.id = "m1" ∧ m'.status = Status.read)
    ∧ (∃ m', m' ∈ handleReadReceipt [] "bob" ["m1"] "bob"
        (fun k => if k = "bob"
          then [{ demoIncoming "alice" "bob" with status := Status.read }]
          else []) "bob"
      ∧ m'.id = "m1" ∧ m'.status = Status.read)
    ∧ (∃ m', m' ∈ (runReadEffect "alice" (some "bob") []
        (fun k => if k = "bob"
          then [{ demoIncoming "alice" "bob" with status := Status.read }]
          else [])).2.1 "bob"
      ∧ m'.id = "m1" ∧ m'.status = Status.read)
    ∧ (∃ m', m' ∈ (handleSendMessage
        { id := "alice", name := "Alice", username := "alice", phone := "",
          bioText := "", avatarColor := "red" }
        [] none 9 "x" []
        (fun k => if k = "bob"
          then [{ demoIncoming "alice" "bob" with status := Status.read }]
          else []) (fun _ => none)).store "bob"
      ∧ m'.id = "m1" ∧ m'.status = Status.read) :=
  ⟨c8_read_monotone.1 "alice" none demoDir (demoIncoming "alice" "bob") []
      (fun k => if k = "bob"
        then [{ demoIncoming "alice" "bob" with status := Status.read }]
        else []) "bob"
      { demoIncoming "alice" "bob" with status := Status.read } (by decide) rfl,
   c8_read_monotone.2.1 [] "bob" ["m1"] "bob"
      (fun k => if k = "bob"
        then [{ demoIncoming "alice" "bob" with status := Status.read }]
        else []) "bob"
      { demoIncoming "alice" "bob" with status := Status.read } (by decide) rfl,
   c8_read_monotone.2.2.1 "alice" (some "bob") []
      (fun k => if k = "bob"
        then [{ demoIncoming "alice" "bob" with status := Status.read }]
        else []) "bob"
      { demoIncoming "alice" "bob" with status := Status.read } (by decide) rfl,
   c8_read_monotone.2.2.2
      { id := "alice", name := "Alice", username := "alice", phone := "",
        bioText := "", avatarColor := "red" }
      [] none 9 "x" []
      (fun k => if k = "bob"
        then [{ demoIncoming "alice" "bob" with status := Status.read }]
        else []) (fun _ => none) "bob"
      { demoIncoming "alice" "bob" with status := Status.read } (by decide) rfl⟩
